import Mathlib

/-!
Verification development for the gameTaskEmulator repository.

The definitions below are a shallow embedding of the Go sources:
  cmd/gameTaskEmulator/config.go   (team directory, identifier resolution, flag loop)
  cmd/gameTaskEmulator/main.go     (filters, task synthesis, queue creation, pipeline)
  internal/notification/discord.go (summary embed construction, senders)
  internal/notification (noop.go / types.go, embedded in the test bundle)

Conventions:
  * Machine integers become Nat/Int (team ids and game ids are small).
  * Timestamps (Go time.Time) become GoTime: an instant in integer
    nanoseconds since the Unix epoch plus the zone offset in seconds,
    which is exactly the data the program observes (Add, After, Format).
  * time.Parse(time.RFC3339, s) is embedded as parseRFC3339, following
    Go's strict RFC3339 parse path (format_rfc3339 in the time package);
    t.Format(time.RFC3339) is embedded as formatRFC3339.  Calendar
    conversions use the standard civil-days algorithm, which computes the
    same date<->epoch-day function as Go's time package.
  * External effects (HTTP calls of the Cloud Tasks transport and of the
    Discord webhook) are passed in as explicit responses, and time.Now()
    becomes an explicit argument, so every function is pure.
  * Fallible Go functions returning (T, error) become Except String T.
-/

/-! ## Go string primitives -/

/-- The character test of Go's unicode.IsSpace (used by strings.TrimSpace):
tab, newline, vertical tab, form feed, carriage return, space, NEL, NBSP
and the Unicode Zs code points. -/
def goIsSpace (c : Char) : Bool :=
  c.toNat = 9 || c.toNat = 10 || c.toNat = 11 || c.toNat = 12 || c.toNat = 13 ||
  c.toNat = 32 || c.toNat = 0x85 || c.toNat = 0xa0 || c.toNat = 0x1680 ||
  (0x2000 ≤ c.toNat && c.toNat ≤ 0x200a) ||
  c.toNat = 0x2028 || c.toNat = 0x2029 || c.toNat = 0x202f ||
  c.toNat = 0x205f || c.toNat = 0x3000

/-- Trim goIsSpace characters from both ends of a character list:
first the leading run, then the trailing run. -/
def trimList (l : List Char) : List Char :=
  ((l.dropWhile goIsSpace).reverse.dropWhile goIsSpace).reverse

/-- Go strings.TrimSpace. -/
def goTrimSpace (s : String) : String := ⟨trimList s.data⟩

/-- Go strings.ToUpper on one character.  The inputs the program cares
about (team tokens) are ASCII; the mapping is the ASCII case fold. -/
def goUpperChar (c : Char) : Char :=
  if 97 ≤ c.toNat ∧ c.toNat ≤ 122 then c.toUpper else c

/-- Go strings.ToUpper. -/
def goToUpper (s : String) : String := ⟨s.data.map goUpperChar⟩

/-- Go strconv.Atoi: optional single sign, then a nonempty run of ASCII
digits, nothing else; values outside the int64 range are an error. -/
def goAtoi (s : String) : Option Int :=
  match s.data with
  | [] => none
  | c :: rest =>
    let neg := c = '-'
    let digits := if c = '-' || c = '+' then rest else c :: rest
    if digits = [] then none
    else if digits.all Char.isDigit then
      let n : Nat := digits.foldl (fun a d => a * 10 + (d.toNat - 48)) 0
      let v : Int := if neg then -(n : Int) else (n : Int)
      if v < -(2 ^ 63) || (2 ^ 63 - 1 : Int) < v then none else some v
    else none

/-- Go strings.Contains: sub occurs contiguously in s. -/
def goContains (s sub : String) : Bool :=
  (List.range (s.data.length + 1)).any (fun i => sub.data.isPrefixOf (s.data.drop i))

/-- Decimal digits of a Nat, most significant first.  The fuel argument
only bounds the recursion; natDecimal supplies enough of it. -/
def natDecimalAux (fuel : Nat) (n : Nat) : List Char :=
  match fuel with
  | 0 => []
  | fuel + 1 =>
    if n < 10 then [Char.ofNat (48 + n)]
    else natDecimalAux fuel (n / 10) ++ [Char.ofNat (48 + n % 10)]

/-- Decimal rendering of a Nat (Go fmt %d on a nonnegative int). -/
def natDecimal (n : Nat) : String := ⟨natDecimalAux (n + 1) n⟩

/-- Go strconv.Itoa. -/
def intDecimal (i : Int) : String :=
  if i < 0 then "-" ++ natDecimal i.natAbs else natDecimal i.natAbs

/-! ## Time: RFC3339 parsing and formatting -/

/-- A Go time.Time as the program observes it: the absolute instant in
nanoseconds since the Unix epoch, and the zone offset in seconds kept
from parsing (Go keeps the parsed fixed zone and formats in it). -/
structure GoTime where
  nanos : Int
  offset : Int
deriving DecidableEq, Repr

/-- time.Time.Add: shifts the instant, keeps the location. -/
def goTimeAdd (t : GoTime) (d : Int) : GoTime := ⟨t.nanos + d, t.offset⟩

/-- Go's leap-year rule. -/
def isLeapYear (y : Nat) : Bool :=
  y % 4 = 0 && (y % 100 != 0 || y % 400 = 0)

/-- Days in a month, as Go's time.daysIn. -/
def daysInMonth (m y : Nat) : Nat :=
  if m = 2 then (if isLeapYear y then 29 else 28)
  else if m = 4 || m = 6 || m = 9 || m = 11 then 30
  else 31

/-- Days since 1970-01-01 of a civil date (standard civil-days
algorithm; the same date to epoch-day function as Go's time package). -/
def daysFromCivil (y m d : Nat) : Int :=
  let yv : Int := if m ≤ 2 then (y : Int) - 1 else (y : Int)
  let era : Int := Int.ediv yv 400
  let yoe : Int := yv - era * 400
  let mp : Int := if 3 ≤ m then (m : Int) - 3 else (m : Int) + 9
  let doy : Int := Int.ediv (153 * mp + 2) 5 + (d : Int) - 1
  let doe : Int := yoe * 365 + Int.ediv yoe 4 - Int.ediv yoe 100 + doy
  era * 146097 + doe - 719468

/-- Civil date (year, month, day) of a count of days since 1970-01-01
(standard civil-days algorithm, inverse of daysFromCivil). -/
def civilFromDays (z0 : Int) : Int × Nat × Nat :=
  let z := z0 + 719468
  let era := Int.ediv z 146097
  let doe := (z - era * 146097).toNat
  let yoe := (doe - doe / 1460 + doe / 36524 - doe / 146096) / 365
  let y : Int := (yoe : Int) + era * 400
  let doy := doe - (365 * yoe + yoe / 4 - yoe / 100)
  let mp := (5 * doy + 2) / 153
  let d := doy - (153 * mp + 2) / 5 + 1
  let m := if mp < 10 then mp + 3 else mp - 9
  (if m ≤ 2 then y + 1 else y, m, d)

/-- Value of one ASCII digit. -/
def digitVal (c : Char) : Option Nat :=
  if c.isDigit then some (c.toNat - 48) else none

/-- Two-digit field. -/
def dig2 (c1 c2 : Char) : Option Nat :=
  match digitVal c1, digitVal c2 with
  | some a, some b => some (a * 10 + b)
  | _, _ => none

/-- Four-digit field. -/
def dig4 (c1 c2 c3 c4 : Char) : Option Nat :=
  match digitVal c1, digitVal c2, digitVal c3, digitVal c4 with
  | some a, some b, some c, some d => some (a * 1000 + b * 100 + c * 10 + d)
  | _, _, _, _ => none

/-- Nanoseconds of a fractional-second digit run, as Go's
parseNanoseconds: the first nine digits, scaled to nanoseconds. -/
def fracNanos (ds : List Char) : Nat :=
  let ds9 := ds.take 9
  (ds9.foldl (fun a c => a * 10 + (c.toNat - 48)) 0) * 10 ^ (9 - ds9.length)

/-- Combine calendar fields and a zone offset into an instant. -/
def mkInstant (days : Int) (secOfDay nsec : Nat) (offsetSec : Int) : GoTime :=
  ⟨(days * 86400 + (secOfDay : Int) - offsetSec) * 1000000000 + (nsec : Int), offsetSec⟩

/-- time.Parse(time.RFC3339, s), following Go's strict RFC3339 path:
"YYYY-MM-DDTHH:MM:SS", ranges checked (day against the month length),
an optional ".digits" fraction, then exactly "Z" or a "+HH:MM"/"-HH:MM"
offset with HH in 0..23 and MM in 0..59. -/
def parseRFC3339 (s : String) : Option GoTime :=
  match s.data with
  | y1 :: y2 :: y3 :: y4 :: c1 :: o1 :: o2 :: c2 :: d1 :: d2 :: c3 ::
    h1 :: h2 :: c4 :: i1 :: i2 :: c5 :: s1 :: s2 :: rest =>
    if c1 = '-' && c2 = '-' && c3 = 'T' && c4 = ':' && c5 = ':' then
      match dig4 y1 y2 y3 y4, dig2 o1 o2, dig2 d1 d2,
            dig2 h1 h2, dig2 i1 i2, dig2 s1 s2 with
      | some year, some month, some day, some hour, some minute, some sec =>
        if 1 ≤ month && month ≤ 12 && 1 ≤ day && day ≤ daysInMonth month year
            && hour ≤ 23 && minute ≤ 59 && sec ≤ 59 then
          let p : Nat × List Char :=
            match rest with
            | '.' :: d :: ds =>
              if d.isDigit then
                (fracNanos ((d :: ds).takeWhile Char.isDigit),
                 (d :: ds).dropWhile Char.isDigit)
              else (0, rest)
            | _ => (0, rest)
          let sod := hour * 3600 + minute * 60 + sec
          match p.2 with
          | ['Z'] => some (mkInstant (daysFromCivil year month day) sod p.1 0)
          | [sg, z1, z2, zc, z3, z4] =>
            if (sg = '+' || sg = '-') && zc = ':' then
              match dig2 z1 z2, dig2 z3 z4 with
              | some zh, some zm =>
                if zh ≤ 23 && zm ≤ 59 then
                  let off : Int :=
                    (if sg = '-' then -1 else 1) * ((zh : Int) * 3600 + (zm : Int) * 60)
                  some (mkInstant (daysFromCivil year month day) sod p.1 off)
                else none
              | _, _ => none
            else none
          | _ => none
        else none
      | _, _, _, _, _, _ => none
    else none
  | _ => none

/-- Left-pad to two digits. -/
def pad2 (n : Nat) : String := if n < 10 then "0" ++ natDecimal n else natDecimal n

/-- Left-pad to four digits (wider numbers are printed in full, as Go
does). -/
def pad4 (n : Nat) : String :=
  if n < 10 then "000" ++ natDecimal n
  else if n < 100 then "00" ++ natDecimal n
  else if n < 1000 then "0" ++ natDecimal n
  else natDecimal n

/-- t.Format(time.RFC3339): the civil time in the time's own zone,
without fractional seconds, with "Z" exactly when the offset is zero. -/
def formatRFC3339 (t : GoTime) : String :=
  let localSec : Int := Int.ediv t.nanos 1000000000 + t.offset
  let days : Int := Int.ediv localSec 86400
  let sod : Nat := (localSec - days * 86400).toNat
  let ymd := civilFromDays days
  let datePart := (if ymd.1 < 0 then "-" else "") ++ pad4 ymd.1.natAbs ++ "-" ++
    pad2 ymd.2.1 ++ "-" ++ pad2 ymd.2.2
  let timePart := pad2 (sod / 3600) ++ ":" ++ pad2 (sod % 3600 / 60) ++ ":" ++
    pad2 (sod % 60)
  let zonePart :=
    if t.offset = 0 then "Z"
    else
      let mins := t.offset.natAbs / 60
      (if t.offset < 0 then "-" else "+") ++ pad2 (mins / 60) ++ ":" ++ pad2 (mins % 60)
  datePart ++ "T" ++ timePart ++ zonePart

/-! ## Data model (main.go, config.go) -/

/-- Team information from the NHL API, also used in task payloads. -/
structure Team where
  id : Int
  commonName : List (String × String)
  placeName : List (String × String)
  placeNameWithPreposition : List (String × String)
  abbr : String
deriving DecidableEq, Repr

/-- A single NHL game. -/
structure Game where
  id : Int
  gameDate : String
  startTime : String
  awayTeam : Team
  homeTeam : Team
deriving DecidableEq, Repr

/-- Application configuration (config.go Config). -/
structure Config where
  date : String
  teams : List Int
  testMode : Bool
  allTeams : Bool
  today : Bool
  production : Bool
  shootout : Bool
  projectID : String
  location : String
  queueName : String
  localMode : Bool
  hostURL : String
  discordWebhookURL : String
  emulatorHost : String
deriving Repr

/-- The static city-code to team-id directory (config.go
cityCodeToTeamID), as the list of its entries. -/
def cityCodeToTeamID : List (String × Int) :=
  [("ANA", 24), ("ARI", 53), ("BOS", 1), ("BUF", 7), ("CAR", 12),
   ("CBJ", 29), ("CGY", 20), ("CHI", 16), ("COL", 21), ("DAL", 25),
   ("DET", 17), ("EDM", 22), ("FLA", 13), ("LAK", 26), ("MIN", 30),
   ("MTL", 8), ("NJD", 6), ("NSH", 18), ("NYI", 2), ("NYR", 3),
   ("OTT", 9), ("PHI", 4), ("PIT", 5), ("SEA", 55), ("SJS", 28),
   ("STL", 19), ("TBL", 14), ("TOR", 10), ("VAN", 23), ("VGK", 54),
   ("WPG", 52), ("WSH", 15)]

/-- Go map lookup in the city-code directory. -/
def lookupCityCode (s : String) : Option Int :=
  (cityCodeToTeamID.find? (fun p => p.1 == s)).map (fun p => p.2)

/-- The normalization step of parseTeamIdentifier:
strings.TrimSpace(strings.ToUpper(identifier)). -/
def normalizeIdentifier (s : String) : String := goTrimSpace (goToUpper s)

/-- config.go parseTeamIdentifier: normalize, try the city-code
directory, then strconv.Atoi, otherwise the invalid-identifier error. -/
def parseTeamIdentifier (identifier : String) : Except String Int :=
  let idn := normalizeIdentifier identifier
  match lookupCityCode idn with
  | some teamID => Except.ok teamID
  | none =>
    match goAtoi idn with
    | some teamID => Except.ok teamID
    | none =>
      Except.error ("invalid team identifier: " ++ idn ++
        " (use city code like CHI or numeric ID like 16)")

/-- The team-parsing loop of config.go parseFlags: resolve each token in
order; log.Fatalf on the first invalid token (embedded as the error
case, which yields no partial list). -/
def parseTeamsLoop : List String → Except String (List Int)
  | [] => Except.ok []
  | t :: ts =>
    match parseTeamIdentifier t with
    | Except.error e => Except.error e
    | Except.ok teamID =>
      match parseTeamsLoop ts with
      | Except.error e => Except.error e
      | Except.ok ids => Except.ok (teamID :: ids)

/-! ## Event filters (main.go) -/

/-- main.go filterGamesForTeams: an empty team list means all games;
otherwise keep the games whose home or away team id is in the set,
preserving order (the Go loop appends in input order; the hash set
lookup is list membership here). -/
def filterGamesForTeams (games : List Game) (teams : List Int) : List Game :=
  if teams.length = 0 then games
  else games.filter (fun g => teams.contains g.homeTeam.id || teams.contains g.awayTeam.id)

/-- main.go filterUpcomingGames with time.Now() passed explicitly as an
instant in nanoseconds: keep a game when its start time parses and
startTime.After(now); games whose start time does not parse are dropped
with a logged warning, never an error. -/
def filterUpcomingGames (games : List Game) (now : Int) : List Game :=
  games.filter (fun g =>
    match parseRFC3339 g.startTime with
    | none => false
    | some st => decide (now < st.nanos))

/-! ## Task synthesis and queue creation (main.go) -/

/-- Game information inside the task payload (main.go GameInfo). -/
structure GameInfo where
  id : String
  gameDate : String
  startTime : String
  homeTeam : Team
  awayTeam : Team
deriving DecidableEq, Repr

/-- The cloud-task payload (main.go TaskPayload): the game, the optional
execution_end string, and the ShouldNotify boolean. -/
structure TaskPayload where
  game : GameInfo
  executionEnd : Option String
  shouldNotify : Bool
deriving DecidableEq, Repr

/-- The task request handed to the transport: queue path, target URL,
payload (kept structured; the JSON marshalling of TaskPayload never
fails and preserves these fields), and the schedule instant passed to
timestamppb.New. -/
structure CloudTaskRequest where
  parent : String
  url : String
  payload : TaskPayload
  scheduleTime : Int
deriving DecidableEq, Repr

/-- The queue path string built in main.go. -/
def queuePath (config : Config) : String :=
  "projects/" ++ config.projectID ++ "/locations/" ++ config.location ++
    "/queues/" ++ config.queueName

/-- 5 minutes in nanoseconds. -/
def fiveMinutesNanos : Int := 5 * 60 * 1000000000

/-- 4 hours in nanoseconds. -/
def fourHoursNanos : Int := 4 * 60 * 60 * 1000000000

/-- main.go createCloudTask, up to the transport call: parse the start
time (error if unparseable), build execution_end as the RFC3339 form of
start + 4h, build the payload (id via strconv.Itoa, the original start
string verbatim, ShouldNotify = !TestMode), pick the target URL, and
schedule 5 minutes before the start. -/
def createCloudTask (config : Config) (game : Game) : Except String CloudTaskRequest :=
  match parseRFC3339 game.startTime with
  | none => Except.error "failed to parse start time"
  | some startTime =>
    let executionEnd := formatRFC3339 (goTimeAdd startTime fourHoursNanos)
    let payload : TaskPayload :=
      ⟨⟨intDecimal game.id, game.gameDate, game.startTime, game.homeTeam, game.awayTeam⟩,
       some executionEnd, !config.testMode⟩
    let targetURL := if config.localMode then "http://host.docker.internal:8080" else config.hostURL
    let scheduleTime := goTimeAdd startTime (-fiveMinutesNanos)
    Except.ok ⟨queuePath config, targetURL, payload, scheduleTime.nanos⟩

/-- main.go createQueue, with the transport's CreateQueue response as an
explicit argument (none is success, some e is the error text): an error
whose text contains "already exists" or "AlreadyExists" is success. -/
def createQueue (resp : Option String) : Except String Unit :=
  match resp with
  | none => Except.ok ()
  | some e =>
    if goContains e "already exists" || goContains e "AlreadyExists" then Except.ok ()
    else Except.error ("failed to create queue: " ++ e)

/-! ## Dispatch pipeline (main.go processGames and the tail of main) -/

/-- The external Cloud Tasks transport, as its responses: the
CreateQueue response and the CreateTask response per game (none is
success). -/
structure Transport where
  createQueueResp : Option String
  createTaskErr : Game → Option String

/-- The observable outcome of processGames. -/
structure RunOutcome where
  queueCreateCalled : Bool
  queueWarning : Option String
  dispatchCalls : List Game
  tasksCreatedFor : List Game
  result : Except String Unit

/-- The per-game loop of processGames: synthesize each task; on
synthesis failure log and continue; otherwise call the transport and on
failure log and continue.  Returns (games whose CreateTask was invoked,
games whose task was created), in input order. -/
def processLoop (tr : Transport) (config : Config) : List Game → List Game × List Game
  | [] => ([], [])
  | g :: gs =>
    let rest := processLoop tr config gs
    match createCloudTask config g with
    | Except.error _ => rest
    | Except.ok _ =>
      match tr.createTaskErr g with
      | some _ => (g :: rest.1, rest.2)
      | none => (g :: rest.1, g :: rest.2)

/-- main.go processGames: an empty list returns success at once, with no
queue creation and no transport call; otherwise createQueue is called
once (its failure only logged as a warning), the loop runs, and the
function returns nil regardless of per-game failures. -/
def processGames (tr : Transport) (config : Config) (games : List Game) : RunOutcome :=
  if games.length = 0 then ⟨false, none, [], [], Except.ok ()⟩
  else
    let qw : Option String :=
      match createQueue tr.createQueueResp with
      | Except.ok _ => none
      | Except.error e => some e
    let lp := processLoop tr config games
    ⟨true, qw, lp.1, lp.2, Except.ok ()⟩

/-! ## Notification (internal/notification) -/

/-- notification.GameInfo. -/
structure NGameInfo where
  id : String
  gameDate : String
  startTime : String
  homeTeam : String
  awayTeam : String
deriving DecidableEq, Repr

/-- A Discord embed (title, description, color, timestamp; the unused
fields list is omitted). -/
structure DiscordEmbed where
  title : String
  description : String
  color : Int
  timestamp : String
deriving DecidableEq, Repr

/-- A Discord webhook message. -/
structure DiscordMessage where
  content : String
  embeds : List DiscordEmbed
deriving DecidableEq, Repr

/-- A notification sender: the no-op sender, or a Discord sender with
its webhook URL and optional user id (WithUserID; empty means none). -/
inductive Sender where
  | noOp : Sender
  | discord : String → String → Sender
deriving DecidableEq, Repr

/-- notification.NewDiscordSender: an empty webhook URL yields the
no-op sender; otherwise a Discord sender with the options applied. -/
def newDiscordSender (webhookURL userID : String) : Sender :=
  if webhookURL = "" then Sender.noOp else Sender.discord webhookURL userID

/-- Sender.IsEnabled. -/
def isEnabled : Sender → Bool
  | Sender.noOp => false
  | Sender.discord url _ => url != ""

/-- DiscordSender.sendPayload, with the webhook HTTP response as an
explicit argument (transport error, or the status code): success only
on 200 or 204. -/
def sendPayload (resp : Except String Nat) (_payload : DiscordMessage) : Except String Unit :=
  match resp with
  | Except.error e => Except.error ("failed to send Discord notification: " ++ e)
  | Except.ok status =>
    if status != 200 && status != 204 then
      Except.error ("Discord webhook returned status " ++ natDecimal status)
    else Except.ok ()

/-- The embed built by DiscordSender.SendScheduleSummary (time.Now()
passed as the preformatted timestamp string): the fixed no-games embed
(gray, 9807270), or the per-game description blocks in input order with
the optional trailing mention, the singular/plural title, and the green
color 3066993. -/
def scheduleSummaryEmbed (userID now : String) (games : List NGameInfo) : DiscordEmbed :=
  if games.length = 0 then
    ⟨"NHL Game Schedule", "No games were identified to schedule.", 9807270, now⟩
  else
    let description := games.foldl
      (fun acc g => acc ++ "**" ++ g.awayTeam ++ " @ " ++ g.homeTeam ++ "**" ++ "\n" ++
        g.gameDate ++ " at " ++ g.startTime ++ "\n\n") ""
    let description := if userID != "" then description ++ "<@" ++ userID ++ ">" else description
    let title := "NHL Game Schedule (" ++ natDecimal games.length ++ " game"
    let title := if games.length != 1 then title ++ "s" else title
    let title := title ++ " scheduled)"
    ⟨title, description, 3066993, now⟩

/-- Sender.Send. -/
def send (s : Sender) (resp : Except String Nat) (message : String) : Except String Unit :=
  match s with
  | Sender.noOp => Except.ok ()
  | Sender.discord _ _ => sendPayload resp ⟨message, []⟩

/-- Sender.SendScheduleSummary. -/
def sendScheduleSummary (s : Sender) (resp : Except String Nat) (now : String)
    (games : List NGameInfo) : Except String Unit :=
  match s with
  | Sender.noOp => Except.ok ()
  | Sender.discord _ userID => sendPayload resp ⟨"", [scheduleSummaryEmbed userID now games]⟩

/-- The conversion in main from a Game to a notification.GameInfo. -/
def gameToNGameInfo (g : Game) : NGameInfo :=
  ⟨intDecimal g.id, g.gameDate, g.startTime, g.homeTeam.abbr, g.awayTeam.abbr⟩

/-- The tail of main after filtering: run processGames, then (because a
fatal processGames error would exit the process first) send exactly one
schedule summary over the same filtered game list when the notifier is
enabled.  Returns the outcome and the list of summary payloads sent. -/
def runPipeline (tr : Transport) (config : Config) (notifierEnabled : Bool)
    (games : List Game) : RunOutcome × List (List NGameInfo) :=
  let out := processGames tr config games
  match out.result with
  | Except.error _ => (out, [])
  | Except.ok _ => (out, if notifierEnabled then [games.map gameToNGameInfo] else [])

/-! ## Fixtures used by the concrete witnesses -/

/-- A small concrete team. -/
def teamFixture (i : Int) (ab : String) : Team :=
  ⟨i, [("default", "Name")], [("default", "Place")], [("default", "Place")], ab⟩

/-- A concrete game with a parseable start time. -/
def gameFixture : Game :=
  ⟨2024030411, "2025-01-15", "2025-01-16T00:00:00Z", teamFixture 25 "DAL", teamFixture 1 "BOS"⟩

/-- A second concrete game with a parseable start time. -/
def gameFixture2 : Game :=
  ⟨2024030412, "2025-01-16", "2025-01-17T01:30:00Z", teamFixture 55 "SEA", teamFixture 26 "LAK"⟩

/-- A concrete game whose dispatch the fixture transport rejects. -/
def gameFixtureRejected : Game :=
  ⟨7, "2025-01-15", "2025-01-16T02:00:00Z", teamFixture 16 "CHI", teamFixture 21 "COL"⟩

/-- A concrete game whose start time does not parse. -/
def gameFixtureBad : Game :=
  ⟨99, "2025-01-15", "not a timestamp", teamFixture 13 "FLA", teamFixture 14 "TBL"⟩

/-- A concrete configuration (local mode, not test mode). -/
def configFixture : Config :=
  ⟨"2025-01-15", [25], false, false, false, false, false, "localproject",
   "us-south1", "gameschedule", true, "", "", "localhost:8123"⟩

/-- A concrete transport that accepts every queue creation and rejects
the task of game id 7. -/
def transportFixture : Transport :=
  ⟨none, fun g => if g.id = 7 then some "boom" else none⟩

/-! ## Shared helper lemmas -/

theorem filter_self_idem {α : Type} (p : α → Bool) (l : List α) :
    (l.filter p).filter p = l.filter p := by
  induction l with
  | nil => rfl
  | cons a l ih =>
    by_cases h : p a = true
    · simp [List.filter_cons, h, ih]
    · simp only [Bool.not_eq_true] at h
      simp [List.filter_cons, h, ih]

theorem processLoop_indep_queue (q : Option String) (tr : Transport) (c : Config)
    (l : List Game) : processLoop ⟨q, tr.createTaskErr⟩ c l = processLoop tr c l := by
  induction l with
  | nil => rfl
  | cons g gs ih => simp only [processLoop, ih]

/-! ## Claim C1: task timing -/

/-- C1: for every event whose start instant parses as RFC3339, the task
built for it is scheduled exactly 5 minutes before the start instant,
its execution-end instant is exactly the start instant plus 4 hours
(the payload's execution_end field is the RFC3339 rendering of that
instant); hence the scheduled-send instant is strictly before the start
and the execution-end instant strictly after it. -/
theorem claim1_task_timing (config : Config) (game : Game) (st : GoTime)
    (h : parseRFC3339 game.startTime = some st) :
    ∃ task, createCloudTask config game = Except.ok task ∧
      task.scheduleTime = st.nanos - fiveMinutesNanos ∧
      task.payload.executionEnd = some (formatRFC3339 (goTimeAdd st fourHoursNanos)) ∧
      (goTimeAdd st fourHoursNanos).nanos = st.nanos + fourHoursNanos ∧
      task.scheduleTime < st.nanos ∧
      st.nanos < (goTimeAdd st fourHoursNanos).nanos := by
  simp only [createCloudTask, h]
  refine ⟨_, rfl, ?_, rfl, rfl, ?_, ?_⟩
  · simp [goTimeAdd]
    omega
  · simp only [goTimeAdd, fiveMinutesNanos]
    omega
  · simp only [goTimeAdd, fourHoursNanos]
    omega

/-- Witness for C1 at a concrete event. -/
theorem claim1_witness :
    ∃ task, createCloudTask configFixture gameFixture = Except.ok task ∧
      task.scheduleTime = (1736985600000000000 : Int) - fiveMinutesNanos ∧
      task.payload.executionEnd =
        some (formatRFC3339 (goTimeAdd ⟨1736985600000000000, 0⟩ fourHoursNanos)) ∧
      (goTimeAdd (⟨1736985600000000000, 0⟩ : GoTime) fourHoursNanos).nanos =
        (1736985600000000000 : Int) + fourHoursNanos ∧
      task.scheduleTime < (1736985600000000000 : Int) ∧
      (1736985600000000000 : Int) < (goTimeAdd (⟨1736985600000000000, 0⟩ : GoTime) fourHoursNanos).nanos :=
  claim1_task_timing configFixture gameFixture ⟨1736985600000000000, 0⟩ (by decide)

/-! ## Claim C9: task payload contents -/

/-- C9: for every event with a parseable start instant, the task payload
carries the event id as a decimal string, the event date, the original
start string verbatim, the full home and away team fields, an
execution_end string field, and ShouldNotify true iff the run is not in
test mode. -/
theorem claim9_payload (config : Config) (game : Game) (st : GoTime)
    (h : parseRFC3339 game.startTime = some st) :
    ∃ task, createCloudTask config game = Except.ok task ∧
      task.payload.game.id = intDecimal game.id ∧
      task.payload.game.gameDate = game.gameDate ∧
      task.payload.game.startTime = game.startTime ∧
      task.payload.game.homeTeam = game.homeTeam ∧
      task.payload.game.awayTeam = game.awayTeam ∧
      (∃ s, task.payload.executionEnd = some s) ∧
      (task.payload.shouldNotify = true ↔ config.testMode = false) := by
  simp only [createCloudTask, h]
  exact ⟨_, rfl, rfl, rfl, rfl, rfl, rfl, ⟨_, rfl⟩, by simp⟩

/-- Witness for C9 at a concrete event. -/
theorem claim9_witness :
    ∃ task, createCloudTask configFixture gameFixture = Except.ok task ∧
      task.payload.game.id = intDecimal gameFixture.id ∧
      task.payload.game.gameDate = gameFixture.gameDate ∧
      task.payload.game.startTime = gameFixture.startTime ∧
      task.payload.game.homeTeam = gameFixture.homeTeam ∧
      task.payload.game.awayTeam = gameFixture.awayTeam ∧
      (∃ s, task.payload.executionEnd = some s) ∧
      (task.payload.shouldNotify = true ↔ configFixture.testMode = false) :=
  claim9_payload configFixture gameFixture ⟨1736985600000000000, 0⟩ (by decide)

/-! ## Claim C10: the no-op sender -/

/-- C10: constructing the notification sender with an empty webhook URL
yields the no-op sender, whose IsEnabled is false and whose Send and
SendScheduleSummary return no error for any input or transport
response. -/
theorem claim10_noop_sender (userID msg now : String) (games : List NGameInfo)
    (resp1 resp2 : Except String Nat) :
    newDiscordSender "" userID = Sender.noOp ∧
    isEnabled (newDiscordSender "" userID) = false ∧
    send (newDiscordSender "" userID) resp1 msg = Except.ok () ∧
    sendScheduleSummary (newDiscordSender "" userID) resp2 now games = Except.ok () := by
  simp [newDiscordSender, isEnabled, send, sendScheduleSummary]

/-! ## Claim C8: idempotent queue creation, warning-only in the pipeline -/

/-- C8: createQueue succeeds exactly when the transport call succeeded
or its error text contains "already exists" or "AlreadyExists" (hence
calling it twice is idempotent); any other createQueue error leaves the
pipeline result successful and the per-event dispatch outcomes
unchanged. -/
theorem claim8_queue_idempotent (tr : Transport) (config : Config) (games : List Game)
    (e : String) :
    (∀ resp, createQueue resp = Except.ok () ↔
       (resp = none ∨ ∃ msg, resp = some msg ∧
         (goContains msg "already exists" || goContains msg "AlreadyExists") = true)) ∧
    (processGames tr config games).result = Except.ok () ∧
    (processGames ⟨some e, tr.createTaskErr⟩ config games).result = Except.ok () ∧
    (processGames ⟨some e, tr.createTaskErr⟩ config games).tasksCreatedFor =
      (processGames tr config games).tasksCreatedFor ∧
    (processGames ⟨some e, tr.createTaskErr⟩ config games).dispatchCalls =
      (processGames tr config games).dispatchCalls := by
  refine ⟨?_, ?_, ?_, ?_, ?_⟩
  · intro resp
    match resp with
    | none => simp [createQueue]
    | some msg =>
      simp only [createQueue]
      by_cases h : (goContains msg "already exists" || goContains msg "AlreadyExists") = true
      · rw [if_pos h]
        exact iff_of_true rfl (Or.inr ⟨msg, rfl, h⟩)
      · rw [if_neg h]
        apply iff_of_false
        · intro hc
          exact Except.noConfusion hc
        · rintro (hn | ⟨m, hm, hc⟩)
          · exact Option.noConfusion hn
          · cases hm
            exact h hc
  · by_cases h : games.length = 0 <;> simp [processGames, h]
  · by_cases h : games.length = 0 <;> simp [processGames, h]
  · by_cases h : games.length = 0 <;>
      simp [processGames, h, processLoop_indep_queue]
  · by_cases h : games.length = 0 <;>
      simp [processGames, h, processLoop_indep_queue]

/-- Witness for C8: the second createQueue call, whose transport answer
is an already-exists error, still succeeds, and a failing queue creation
does not change the pipeline's task outcomes. -/
theorem claim8_witness :
    createQueue (some "rpc error: queue already exists") = Except.ok () ∧
    (processGames ⟨some "hard failure", transportFixture.createTaskErr⟩ configFixture
        [gameFixture]).tasksCreatedFor =
      (processGames transportFixture configFixture [gameFixture]).tasksCreatedFor := by
  constructor
  · exact ((claim8_queue_idempotent transportFixture configFixture [] "x").1
      (some "rpc error: queue already exists")).mpr (Or.inr ⟨_, rfl, by decide⟩)
  · exact (claim8_queue_idempotent transportFixture configFixture [gameFixture]
      "hard failure").2.2.2.1

/-! ## Claim C2: the schedule summary embed -/

/-- Modelled from the spec for comparison: the per-event description
block, exactly "**AWAY @ HOME**\n<date> at <start>\n\n" with the away
team first. -/
def specGameBlock (g : NGameInfo) : String :=
  "**" ++ g.awayTeam ++ " @ " ++ g.homeTeam ++ "**" ++ "\n" ++
    g.gameDate ++ " at " ++ g.startTime ++ "\n\n"

/-- Modelled from the spec for comparison: the non-empty title, with the
plural "s" present iff the count is not 1. -/
def specTitle (n : Nat) : String :=
  "NHL Game Schedule (" ++ natDecimal n ++ " game" ++
    (if n = 1 then "" else "s") ++ " scheduled)"

/-- Modelled from the spec for comparison: the trailing mention token,
present only when a recipient identifier is configured. -/
def specMention (userID : String) : String :=
  if userID = "" then "" else "<@" ++ userID ++ ">"

theorem strJoin_cons (s : String) (ss : List String) :
    String.join (s :: ss) = s ++ String.join ss := by
  rw [String.join_eq, String.join_eq]
  refine String.ext ?_
  simp [String.data_append]

theorem summary_descFoldl (l : List NGameInfo) (acc : String) :
    l.foldl (fun a g => a ++ "**" ++ g.awayTeam ++ " @ " ++ g.homeTeam ++ "**" ++ "\n" ++
      g.gameDate ++ " at " ++ g.startTime ++ "\n\n") acc
    = acc ++ String.join (l.map specGameBlock) := by
  induction l generalizing acc with
  | nil => simp [String.join]
  | cons g gs ih =>
    rw [List.foldl_cons, ih, List.map_cons, strJoin_cons, specGameBlock]
    simp [String.append_assoc]

/-- C2: the summary embed for an empty event list is the fixed no-games
embed, whose color differs from the non-empty branch's color; for a
non-empty list it is the singular/plural title, the concatenation in
input order of the exact per-event blocks with the away team first,
followed by the mention token exactly when a user id is configured, in
the green color. -/
theorem claim2_summary_embed (userID now : String) (games : List NGameInfo) :
    (scheduleSummaryEmbed userID now [] =
       ⟨"NHL Game Schedule", "No games were identified to schedule.", 9807270, now⟩ ∧
     (9807270 : Int) ≠ 3066993) ∧
    (games ≠ [] →
      scheduleSummaryEmbed userID now games =
        ⟨specTitle games.length,
         String.join (games.map specGameBlock) ++ specMention userID,
         3066993, now⟩) := by
  constructor
  · exact ⟨by simp [scheduleSummaryEmbed], by decide⟩
  · intro hne
    have hlen : ¬ games.length = 0 := by
      simpa [List.length_eq_zero] using hne
    simp only [scheduleSummaryEmbed, hlen, if_false, summary_descFoldl,
      String.empty_append, DiscordEmbed.mk.injEq]
    refine ⟨?_, ?_⟩
    · by_cases h1 : games.length = 1
      · simp [h1, specTitle, String.append_empty, String.append_assoc]
      · have h1b : (games.length != 1) = true := by
          simpa using h1
        simp [h1b, h1, specTitle, String.append_assoc]
    · by_cases hu : userID = ""
      · simp [hu, specMention, String.append_empty]
      · have hub : (userID != "") = true := by simpa using hu
        simp [hub, hu, specMention, String.append_assoc]

/-- A pair of concrete games for the summary witness. -/
def summaryGamesFixture : List NGameInfo :=
  [⟨"1", "2025-01-15", "2025-01-16T00:00:00Z", "LAK", "SEA"⟩,
   ⟨"2", "2025-01-15", "2025-01-16T02:00:00Z", "BOS", "DAL"⟩]

/-- Witness for C2 at a concrete two-game list with a configured user. -/
theorem claim2_witness :
    scheduleSummaryEmbed "u1" "2025-01-15T12:00:00Z" summaryGamesFixture =
      ⟨specTitle summaryGamesFixture.length,
       String.join (summaryGamesFixture.map specGameBlock) ++ specMention "u1",
       3066993, "2025-01-15T12:00:00Z"⟩ :=
  (claim2_summary_embed "u1" "2025-01-15T12:00:00Z" summaryGamesFixture).2 (by decide)

/-! ## Claim C4: the team filter -/

/-- C4: with an empty team set the team filter is the identity; with a
non-empty set it keeps exactly the events whose home or away team id is
in the set, in input order (a sublist of the input); and the filter is
idempotent for every team set. -/
theorem claim4_byTeams (games : List Game) (teams : List Int) :
    (teams = [] → filterGamesForTeams games teams = games) ∧
    (teams ≠ [] → ∀ g, g ∈ filterGamesForTeams games teams ↔
        (g ∈ games ∧ (g.homeTeam.id ∈ teams ∨ g.awayTeam.id ∈ teams))) ∧
    (filterGamesForTeams games teams).Sublist games ∧
    filterGamesForTeams (filterGamesForTeams games teams) teams =
      filterGamesForTeams games teams := by
  by_cases h : teams.length = 0
  · have he : teams = [] := List.length_eq_zero.mp h
    refine ⟨fun _ => by simp [filterGamesForTeams, h], fun hne => absurd he hne, ?_, ?_⟩
    · simp [filterGamesForTeams, h]
    · simp [filterGamesForTeams, h]
  · refine ⟨fun he => absurd (he ▸ rfl) h, fun _ g => ?_, ?_, ?_⟩
    · simp only [filterGamesForTeams, h, if_false, List.mem_filter, Bool.or_eq_true,
        List.elem_iff]
    · simp only [filterGamesForTeams, h, if_false]
      exact List.filter_sublist games
    · simp only [filterGamesForTeams, h, if_false]
      exact filter_self_idem _ games

/-- Witness for C4: a concrete event with a matching away team is kept,
and the filter applied twice equals the filter applied once. -/
theorem claim4_witness :
    gameFixture ∈ filterGamesForTeams [gameFixture, gameFixtureBad] [25, 3] ∧
    filterGamesForTeams (filterGamesForTeams [gameFixture, gameFixtureBad] [25, 3]) [25, 3] =
      filterGamesForTeams [gameFixture, gameFixtureBad] [25, 3] := by
  constructor
  · exact ((claim4_byTeams [gameFixture, gameFixtureBad] [25, 3]).2.1 (by decide)
      gameFixture).mpr ⟨by decide, Or.inr (by decide)⟩
  · exact (claim4_byTeams [gameFixture, gameFixtureBad] [25, 3]).2.2.2

/-! ## Claim C5: the upcoming filter -/

/-- C5: an event is in the upcoming filter's output iff it is in the
input, its start instant parses as RFC3339 and that instant is strictly
after now; so malformed start instants are dropped without an error and
no event with start instant at or before now survives.  The output is a
sublist of the input (order preserved). -/
theorem claim5_upcoming (games : List Game) (now : Int) :
    (∀ g, g ∈ filterUpcomingGames games now ↔
        (g ∈ games ∧ ∃ st, parseRFC3339 g.startTime = some st ∧ now < st.nanos)) ∧
    (filterUpcomingGames games now).Sublist games := by
  constructor
  · intro g
    simp only [filterUpcomingGames, List.mem_filter]
    constructor
    · rintro ⟨hg, hp⟩
      refine ⟨hg, ?_⟩
      cases h : parseRFC3339 g.startTime with
      | none => rw [h] at hp; exact absurd hp (by simp)
      | some st =>
        rw [h] at hp
        simp only [decide_eq_true_eq] at hp
        exact ⟨st, rfl, hp⟩
    · rintro ⟨hg, st, hst, hlt⟩
      refine ⟨hg, ?_⟩
      rw [hst]
      simpa using hlt
  · exact List.filter_sublist games

/-- Witness for C5: at a concrete now, a concrete parseable future event
is kept by the filter. -/
theorem claim5_witness :
    gameFixture ∈ filterUpcomingGames [gameFixtureBad, gameFixture] 1736899200000000000 :=
  ((claim5_upcoming [gameFixtureBad, gameFixture] 1736899200000000000).1 gameFixture).mpr
    ⟨by decide, ⟨1736985600000000000, 0⟩, by decide, by decide⟩

/-! ## Claim C3: pipeline behavior on empty input and per-event failure -/

/-- An event succeeds in the pipeline when its task synthesizes and the
transport accepts it. -/
def eventSucceeds (tr : Transport) (config : Config) (g : Game) : Bool :=
  match createCloudTask config g with
  | Except.error _ => false
  | Except.ok _ => (tr.createTaskErr g).isNone

theorem processLoop_all_ok (tr : Transport) (config : Config) (l : List Game)
    (h : ∀ g ∈ l, eventSucceeds tr config g = true) :
    processLoop tr config l = (l, l) := by
  induction l with
  | nil => rfl
  | cons g gs ih =>
    have hg := h g (List.mem_cons_self g gs)
    have hrest := ih (fun x hx => h x (List.mem_cons_of_mem g hx))
    simp only [processLoop, hrest]
    unfold eventSucceeds at hg
    cases hc : createCloudTask config g with
    | error e => rw [hc] at hg; exact absurd hg (by simp)
    | ok task =>
      rw [hc] at hg
      cases ht : tr.createTaskErr g with
      | some e => rw [ht] at hg; exact absurd hg (by simp)
      | none => simp

theorem processLoop_one_failure (tr : Transport) (config : Config)
    (pre : List Game) (bad : Game) (post : List Game)
    (hok : ∀ g ∈ pre ++ post, eventSucceeds tr config g = true)
    (hbad : eventSucceeds tr config bad = false) :
    (processLoop tr config (pre ++ bad :: post)).2 = pre ++ post := by
  induction pre with
  | nil =>
    simp only [List.nil_append]
    have hpost := processLoop_all_ok tr config post (fun g hg => hok g (by simpa using hg))
    simp only [processLoop, hpost]
    unfold eventSucceeds at hbad
    cases hc : createCloudTask config bad with
    | error e => simp
    | ok task =>
      rw [hc] at hbad
      cases ht : tr.createTaskErr bad with
      | some e => simp
      | none => rw [ht] at hbad; exact absurd hbad (by simp)
  | cons g gs ih =>
    have hg := hok g (List.mem_cons_self g _)
    have hrest := ih (fun x hx => hok x (by
      rcases List.mem_append.mp hx with hx | hx
      · exact List.mem_cons_of_mem g (List.mem_append.mpr (Or.inl hx))
      · exact List.mem_cons_of_mem g (List.mem_append.mpr (Or.inr hx))))
    simp only [List.cons_append, processLoop]
    unfold eventSucceeds at hg
    cases hc : createCloudTask config g with
    | error e => rw [hc] at hg; exact absurd hg (by simp)
    | ok task =>
      rw [hc] at hg
      cases ht : tr.createTaskErr g with
      | some e => rw [ht] at hg; exact absurd hg (by simp)
      | none => simpa using hrest

/-- C3: on an empty event list the pipeline returns success having made
no queue-creation call and no transport call; on a list with exactly one
failing event (failed synthesis or failed dispatch) every other event
still gets its task created, the overall result is success, and when the
notifier is enabled exactly one summary is sent, built over the full
filtered list. -/
theorem claim3_pipeline (tr : Transport) (config : Config) :
    ((processGames tr config []).queueCreateCalled = false ∧
     (processGames tr config []).dispatchCalls = [] ∧
     (processGames tr config []).tasksCreatedFor = [] ∧
     (processGames tr config []).result = Except.ok ()) ∧
    (∀ (pre : List Game) (bad : Game) (post : List Game) (notifEnabled : Bool),
       (∀ g ∈ pre ++ post, eventSucceeds tr config g = true) →
       eventSucceeds tr config bad = false →
       (processGames tr config (pre ++ bad :: post)).tasksCreatedFor = pre ++ post ∧
       (processGames tr config (pre ++ bad :: post)).result = Except.ok () ∧
       (runPipeline tr config notifEnabled (pre ++ bad :: post)).2 =
         (if notifEnabled then [(pre ++ bad :: post).map gameToNGameInfo] else [])) := by
  constructor
  · exact ⟨rfl, rfl, rfl, rfl⟩
  · intro pre bad post notifEnabled hok hbad
    have hne : ¬ (pre ++ bad :: post).length = 0 := by
      simp
    have hloop := processLoop_one_failure tr config pre bad post hok hbad
    refine ⟨?_, ?_, ?_⟩
    · simp only [processGames, hne, if_false]
      exact hloop
    · simp only [processGames, hne, if_false]
    · simp only [runPipeline, processGames, hne, if_false]

/-- Witness for C3: with a transport rejecting only game id 7, a
concrete three-game run creates tasks for the other two games, succeeds,
and sends one summary over all three games. -/
theorem claim3_witness :
    (processGames transportFixture configFixture
        [gameFixture, gameFixtureRejected, gameFixture2]).tasksCreatedFor =
      [gameFixture, gameFixture2] ∧
    (processGames transportFixture configFixture
        [gameFixture, gameFixtureRejected, gameFixture2]).result = Except.ok () ∧
    (runPipeline transportFixture configFixture true
        [gameFixture, gameFixtureRejected, gameFixture2]).2 =
      [[gameFixture, gameFixtureRejected, gameFixture2].map gameToNGameInfo] := by
  have h := (claim3_pipeline transportFixture configFixture).2
    [gameFixture] gameFixtureRejected [gameFixture2] true
    (by
      intro g hg
      rcases List.mem_append.mp hg with hg | hg
      · rcases List.mem_singleton.mp hg with rfl
        decide
      · rcases List.mem_singleton.mp hg with rfl
        decide)
    (by decide)
  simpa using h

/-! ## Claim C7: unknown identifiers and fail-fast batching -/

instance {a b : Type} [DecidableEq a] [DecidableEq b] : DecidableEq (Except a b) := fun x y =>
  match x, y with
  | Except.error u, Except.error v =>
    if h : u = v then isTrue (by rw [h]) else
      isFalse (by intro hc; cases hc; exact h rfl)
  | Except.error _, Except.ok _ => isFalse (fun hc => Except.noConfusion hc)
  | Except.ok _, Except.error _ => isFalse (fun hc => Except.noConfusion hc)
  | Except.ok u, Except.ok v =>
    if h : u = v then isTrue (by rw [h]) else
      isFalse (by intro hc; cases hc; exact h rfl)

theorem atoi_of_directory_key : ∀ p ∈ cityCodeToTeamID, goAtoi p.1 = none := by decide

theorem lookup_some_imp_atoi_none (s : String) (v : Int)
    (h : lookupCityCode s = some v) : goAtoi s = none := by
  unfold lookupCityCode at h
  cases hf : cityCodeToTeamID.find? (fun p => p.1 == s) with
  | none => rw [hf] at h; exact absurd h (by simp)
  | some p =>
    have hp := @List.find?_some (String × Int) (fun q => q.1 == s) p cityCodeToTeamID hf
    simp only [beq_iff_eq] at hp
    have hm : p ∈ cityCodeToTeamID := List.mem_of_find?_eq_some hf
    have hnone := atoi_of_directory_key p hm
    rwa [hp] at hnone

/-- C7: resolving a token fails exactly when the normalized token is
neither a directory code nor an integer; every token whose normalized
form parses as an integer resolves to that integer; and the batch
resolver fails with the first invalid token's error, producing no
partial result. -/
theorem claim7_resolution_failure :
    (∀ t, (∃ e, parseTeamIdentifier t = Except.error e) ↔
       (lookupCityCode (normalizeIdentifier t) = none ∧
        goAtoi (normalizeIdentifier t) = none)) ∧
    (∀ t n, goAtoi (normalizeIdentifier t) = some n →
       parseTeamIdentifier t = Except.ok n) ∧
    (∀ (pre : List String) (bad : String) (post : List String) (e : String),
       (∀ t ∈ pre, ∃ i, parseTeamIdentifier t = Except.ok i) →
       parseTeamIdentifier bad = Except.error e →
       parseTeamsLoop (pre ++ bad :: post) = Except.error e) := by
  refine ⟨?_, ?_, ?_⟩
  · intro t
    simp only [parseTeamIdentifier]
    cases hl : lookupCityCode (normalizeIdentifier t) with
    | some v =>
      apply iff_of_false
      · rintro ⟨e, he⟩
        exact Except.noConfusion he
      · rintro ⟨hn, _⟩
        exact Option.noConfusion hn
    | none =>
      cases ha : goAtoi (normalizeIdentifier t) with
      | some n =>
        apply iff_of_false
        · rintro ⟨e, he⟩
          exact Except.noConfusion he
        · rintro ⟨_, hn⟩
          exact Option.noConfusion hn
      | none => exact iff_of_true ⟨_, rfl⟩ ⟨rfl, rfl⟩
  · intro t n ha
    have hl : lookupCityCode (normalizeIdentifier t) = none := by
      cases hl : lookupCityCode (normalizeIdentifier t) with
      | none => rfl
      | some v =>
        have := lookup_some_imp_atoi_none (normalizeIdentifier t) v hl
        exact absurd (this ▸ ha) (by simp)
    simp only [parseTeamIdentifier, hl, ha]
  · intro pre bad post e hok hbad
    induction pre with
    | nil => simp only [List.nil_append, parseTeamsLoop, hbad]
    | cons t ts ih =>
      obtain ⟨i, hi⟩ := hok t (List.mem_cons_self t ts)
      have hrest := ih (fun x hx => hok x (List.mem_cons_of_mem t hx))
      simp only [List.cons_append, parseTeamsLoop, hi, List.append_eq, hrest]

/-- Witness for C7: a concrete batch fails on its unknown middle token
with the exact error message, and an integer-formatted token resolves to
its value. -/
theorem claim7_witness :
    parseTeamsLoop ["CHI", "ZZZ", "DAL"] =
      Except.error "invalid team identifier: ZZZ (use city code like CHI or numeric ID like 16)" ∧
    parseTeamIdentifier " 42 " = Except.ok 42 := by
  constructor
  · exact claim7_resolution_failure.2.2 ["CHI"] "ZZZ" ["DAL"] _
      (by
        intro t ht
        rcases List.mem_singleton.mp ht with rfl
        exact ⟨16, by decide⟩)
      (by decide)
  · exact claim7_resolution_failure.2.1 " 42 " 42 (by decide)

/-! ## Claim C6: format-invariance of identifier resolution -/

theorem goUpperChar_of_space (c : Char) (h : goIsSpace c = true) : goUpperChar c = c := by
  have hn : ¬(97 ≤ c.toNat ∧ c.toNat ≤ 122) := by
    unfold goIsSpace at h
    simp only [Bool.or_eq_true, decide_eq_true_eq, Bool.and_eq_true] at h
    omega
  unfold goUpperChar
  rw [if_neg hn]

theorem map_goUpperChar_of_space (l : List Char) (h : l.all goIsSpace = true) :
    l.map goUpperChar = l := by
  induction l with
  | nil => rfl
  | cons c cs ih =>
    simp only [List.all_cons, Bool.and_eq_true] at h
    simp [goUpperChar_of_space c h.1, ih h.2]

theorem dropWhile_all_nil {α : Type} {p : α → Bool} (l : List α) (h : l.all p = true) :
    l.dropWhile p = [] := by
  induction l with
  | nil => rfl
  | cons c cs ih =>
    simp only [List.all_cons, Bool.and_eq_true] at h
    simp [List.dropWhile_cons, h.1, ih h.2]

theorem trimList_append_left (a l : List Char) (h : a.all goIsSpace = true) :
    trimList (a ++ l) = trimList l := by
  unfold trimList
  rw [List.dropWhile_append, dropWhile_all_nil a h]
  simp

theorem trimList_append_right (l c : List Char) (h : c.all goIsSpace = true) :
    trimList (l ++ c) = trimList l := by
  unfold trimList
  rw [List.dropWhile_append]
  by_cases he : (l.dropWhile goIsSpace).isEmpty = true
  · rw [if_pos he, dropWhile_all_nil c h]
    have hnil : l.dropWhile goIsSpace = [] := by
      simpa [List.isEmpty_iff] using he
    rw [hnil]
  · rw [if_neg he, List.reverse_append, List.dropWhile_append,
      dropWhile_all_nil _ (by simpa using h)]
    simp

theorem normalize_pad (s pre post : String)
    (hpre : pre.data.all goIsSpace = true) (hpost : post.data.all goIsSpace = true) :
    normalizeIdentifier (pre ++ s ++ post) = normalizeIdentifier s := by
  unfold normalizeIdentifier goTrimSpace goToUpper
  congr 1
  show trimList ((pre ++ s ++ post).data.map goUpperChar) = trimList (s.data.map goUpperChar)
  rw [String.data_append, String.data_append, List.map_append, List.map_append,
    map_goUpperChar_of_space pre.data hpre, map_goUpperChar_of_space post.data hpost,
    trimList_append_right _ _ hpost, trimList_append_left _ _ hpre]

/-- C6: every directory code resolves to the same team id as the
decimal string of its numeric id; and resolution only depends on the
case-folded token (letter-case invariance) and is unchanged by leading
and trailing whitespace. -/
theorem claim6_format_invariance (s t pre post : String) :
    (∀ p ∈ cityCodeToTeamID, parseTeamIdentifier p.1 = Except.ok p.2 ∧
       parseTeamIdentifier (intDecimal p.2) = Except.ok p.2) ∧
    (goToUpper s = goToUpper t → parseTeamIdentifier s = parseTeamIdentifier t) ∧
    (pre.data.all goIsSpace = true → post.data.all goIsSpace = true →
       parseTeamIdentifier (pre ++ s ++ post) = parseTeamIdentifier s) := by
  refine ⟨by decide, ?_, ?_⟩
  · intro h
    simp only [parseTeamIdentifier, normalizeIdentifier, h]
  · intro hpre hpost
    simp only [parseTeamIdentifier, normalize_pad s pre post hpre hpost]

/-- Witness for C6: the DAL code and the string "25" resolve to the same
id, and a lowercase, whitespace-padded token resolves like the canonical
one. -/
theorem claim6_witness :
    (parseTeamIdentifier "DAL" = Except.ok 25 ∧
     parseTeamIdentifier (intDecimal 25) = Except.ok 25) ∧
    parseTeamIdentifier (" " ++ "dal" ++ " ") = parseTeamIdentifier "dal" ∧
    parseTeamIdentifier "dal" = parseTeamIdentifier "DAL" := by
  refine ⟨?_, ?_, ?_⟩
  · exact (claim6_format_invariance "x" "x" "x" "x").1 ("DAL", 25) (by decide)
  · exact (claim6_format_invariance "dal" "dal" " " " ").2.2 (by decide) (by decide)
  · exact (claim6_format_invariance "dal" "DAL" " " " ").2.1 (by decide)
